import Mathlib

/-!
# Go-Essays: event dispatch idioms and mutually exclusive interfaces

A shallow embedding of the example programs of the repository
(`content/event_and_polymorphism/src/...` and
`content/mutually_exclusive_interfaces/src/main.go`).

Go code with side effects is embedded as a state transformer that may panic:
a computation of type `Eff σ α` takes the state of the world `σ` and gives
back an outcome (normal return with a value, or a run-time panic) and the
new state.  Go function values are `Option`s of Lean functions, `none` being
the nil function; calling nil panics.  Go `int` arguments are only passed
around by the library code, they are embedded as `Int`.
-/

/-! ## Effects -/

/-- Outcome of running a piece of Go code: it returns a value or it panics. -/
inductive Outcome (α : Type) where
  | returned (a : α)
  | panicked (msg : String)
  deriving DecidableEq, Repr

/-- Effectful Go code over a world state `σ`: explicit state passing, and a
panic keeps the state reached when it was raised. -/
def Eff (σ α : Type) : Type := σ → Outcome α × σ

/-- Normal return. -/
def Eff.ret {σ α : Type} (a : α) : Eff σ α := fun s => (Outcome.returned a, s)

/-- Sequencing of Go statements: a panic of the first skips the second. -/
def Eff.seq {σ α β : Type} (m : Eff σ α) (f : α → Eff σ β) : Eff σ β := fun s =>
  match m s with
  | (Outcome.returned a, s1) => f a s1
  | (Outcome.panicked msg, s1) => (Outcome.panicked msg, s1)

/-- Run-time panic. -/
def Eff.panic {σ α : Type} (msg : String) : Eff σ α := fun s => (Outcome.panicked msg, s)

instance (σ : Type) : Monad (Eff σ) where
  pure := Eff.ret
  bind := Eff.seq

/-- The message of the run-time panic raised by calling a nil function value. -/
def nilDereference : String := "invalid memory address or nil pointer dereference"

/-- A Go value of type `func(x, y int)`; `none` is nil. -/
abbrev ClickFunc (σ : Type) : Type := Option (Int → Int → Eff σ Unit)

/-- The Go call `f(x, y)` of a value of type `func(x, y int)`: calling nil panics. -/
def ClickFunc.call {σ : Type} (f : ClickFunc σ) (x y : Int) : Eff σ Unit :=
  match f with
  | some g => g x y
  | none => Eff.panic nilDereference

/-- A non-nil function `func(x, y int, next func(x, y int))`.  The argument
`next` is always a non-nil function in both chain programs (a closure or a
method value), so it is embedded as a Lean function. -/
abbrev HandlerFn (σ : Type) : Type := Int → Int → (Int → Int → Eff σ Unit) → Eff σ Unit

/-- The type `ClickHandler` (`chain/main.go:7`, `chain/list/main.go:7`, the
same declaration in both programs); `none` is the nil handler. -/
abbrev ClickHandler (σ : Type) : Type := Option (HandlerFn σ)

/-- The Go call `handler(x, y, next)`: calling a nil handler panics. -/
def ClickHandler.call {σ : Type} (handler : ClickHandler σ) (x y : Int)
    (next : Int → Int → Eff σ Unit) : Eff σ Unit :=
  match handler with
  | some h => h x y next
  | none => Eff.panic nilDereference

/-- Standard output: the strings written by the successive `fmt.Printf` calls. -/
abbrev Stdout : Type := List String

/-- The call `fmt.Printf(format, x, y)` for a format `a%vb%vc` with two ints:
`%v` prints an int in decimal. -/
def Printf2 (a b c : String) (x y : Int) : Eff Stdout Unit := fun out =>
  (Outcome.returned (), out ++ [a ++ toString x ++ b ++ toString y ++ c])

/-- The statement `fmt.Printf("Draw a dot at (%v, %v)\n", x, y)`. -/
def drawDot (x y : Int) : Eff Stdout Unit := Printf2 "Draw a dot at (" ", " ")\n" x y

/-- The statement `fmt.Printf("Draw a solid circle at (%v, %v)\n", x, y)`. -/
def drawSolidCircle (x y : Int) : Eff Stdout Unit :=
  Printf2 "Draw a solid circle at (" ", " ")\n" x y

/-- Arithmetic on the Go type `int`, taken as 64 bits wide: the result of an
addition or subtraction wraps around in two's complement. -/
def wrapInt (n : Int) : Int := (n + 2 ^ 63) % 2 ^ 64 - 2 ^ 63

/-- The call `fmt.Printf(format, p, q, r, s)` for a format `a%vb%vc%vd%ve` with
four ints. -/
def Printf4 (a b c d e : String) (p q r s : Int) : Eff Stdout Unit := fun out =>
  (Outcome.returned (),
    out ++ [a ++ toString p ++ b ++ toString q ++ c ++ toString r ++ d ++ toString s ++ e])

/-- The statement
`fmt.Printf("Draw a line from (%v, %v) to (%v, %v)\n", x-10, y, x+10, y)`. -/
def drawLine (x y : Int) : Eff Stdout Unit :=
  Printf4 "Draw a line from (" ", " ") to (" ", " ")\n" (wrapInt (x - 10)) y (wrapInt (x + 10)) y

/-! ## Chain of responsibility as a linked list (`chain/list/main.go`) -/

namespace ChainList

/-- A value of type `*onClickChainItem` (`chain/list/main.go:10`): the nil
pointer, or a pointer to an item with its `Handler` and `Next` fields.  Items
are never modified once allocated, so a pointer is embedded as the item it
points to. -/
inductive onClickChainItem (σ : Type) where
  | nil
  | item (Handler : ClickHandler σ) (Next : onClickChainItem σ)

/-- The method `(*onClickChainItem).Call` (`chain/list/main.go:16`); the
method value `item.Next.Call` binds the receiver without dereferencing it. -/
def onClickChainItem.Call {σ : Type} : onClickChainItem σ → Int → Int → Eff σ Unit
  | onClickChainItem.nil, _, _ => pure ()
  | onClickChainItem.item handler next, x, y => handler.call x y next.Call

/-- The struct `Window` (`chain/list/main.go:23`). -/
structure Window (σ : Type) where
  onClickChainHead : onClickChainItem σ

/-- The zero value `var w Window`. -/
def Window.zero {σ : Type} : Window σ := { onClickChainHead := onClickChainItem.nil }

/-- The method `AddOnClickHandler` (`chain/list/main.go:29`); the updated
window is returned. -/
def Window.AddOnClickHandler {σ : Type} (w : Window σ) (handler : ClickHandler σ) : Window σ :=
  let old := w.onClickChainHead
  { onClickChainHead := onClickChainItem.item handler old }

/-- The method `NotifyClick` (`chain/list/main.go:35`). -/
def Window.NotifyClick {σ : Type} (w : Window σ) (x y : Int) : Eff σ Unit :=
  w.onClickChainHead.Call x y

/-- Registers the handlers of a sequence, in order, on a zero-value window. -/
def register {σ : Type} (hs : List (ClickHandler σ)) : Window σ :=
  hs.foldl Window.AddOnClickHandler Window.zero

/-- The struct `MyWindow` (`chain/list/main.go:39`), which embeds `Window`. -/
structure MyWindow (σ : Type) extends Window σ

/-- The function `NewMyWindow` (`chain/list/main.go:43`). -/
def NewMyWindow : MyWindow Stdout :=
  let win : MyWindow Stdout := { toWindow := Window.zero }
  let handler : ClickHandler Stdout := some (fun x y _ => drawSolidCircle x y)
  let win : MyWindow Stdout := { win with toWindow := win.toWindow.AddOnClickHandler handler }
  win

/-- The function `main` (`chain/list/main.go:51`). -/
def main : Eff Stdout Unit := do
  let window2 := NewMyWindow
  let handler : ClickHandler Stdout := some (fun x y next => do
    drawLine x y
    next x y)
  let window2 : MyWindow Stdout :=
    { window2 with toWindow := window2.toWindow.AddOnClickHandler handler }
  window2.toWindow.NotifyClick 100 200

end ChainList

/-! ## Chain of responsibility as nested closures (`chain/main.go`) -/

namespace Chain

/-- The struct `Window` (`chain/main.go:9`). -/
structure Window (σ : Type) where
  onClickChain : ClickFunc σ

/-- The zero value `var w Window`. -/
def Window.zero {σ : Type} : Window σ := { onClickChain := none }

/-- The method `AddOnClickHandler` (`chain/main.go:15`); the updated window is
returned. -/
def Window.AddOnClickHandler {σ : Type} (w : Window σ) (handler : ClickHandler σ) : Window σ :=
  let old := w.onClickChain
  { onClickChain := some (fun x y =>
      let next : Int → Int → Eff σ Unit := fun x y =>
        if old.isSome then old.call x y else pure ()
      handler.call x y next) }

/-- The method `NotifyClick` (`chain/main.go:28`). -/
def Window.NotifyClick {σ : Type} (w : Window σ) (x y : Int) : Eff σ Unit :=
  if w.onClickChain.isSome then w.onClickChain.call x y else pure ()

/-- Registers the handlers of a sequence, in order, on a zero-value window. -/
def register {σ : Type} (hs : List (ClickHandler σ)) : Window σ :=
  hs.foldl Window.AddOnClickHandler Window.zero

/-- The struct `MyWindow` (`chain/main.go:34`), which embeds `Window`. -/
structure MyWindow (σ : Type) extends Window σ

/-- The function `NewMyWindow` (`chain/main.go:38`). -/
def NewMyWindow : MyWindow Stdout :=
  let win : MyWindow Stdout := { toWindow := Window.zero }
  let handler : ClickHandler Stdout := some (fun x y _ => drawSolidCircle x y)
  let win : MyWindow Stdout := { win with toWindow := win.toWindow.AddOnClickHandler handler }
  win

/-- The function `main` (`chain/main.go:46`). -/
def main : Eff Stdout Unit := do
  let window2 := NewMyWindow
  let handler : ClickHandler Stdout := some (fun x y next => do
    drawLine x y
    next x y)
  let window2 : MyWindow Stdout :=
    { window2 with toWindow := window2.toWindow.AddOnClickHandler handler }
  window2.toWindow.NotifyClick 100 200

end Chain

/-! ## Single callback (`callback/main.go`) -/

namespace Callback

/-- The struct `Window` (`callback/main.go:5`). -/
structure Window (σ : Type) where
  onClick : ClickFunc σ

/-- The zero value `var w Window`. -/
def Window.zero {σ : Type} : Window σ := { onClick := none }

/-- The method `SetOnClickListener` (`callback/main.go:11`); the updated window
is returned. -/
def Window.SetOnClickListener {σ : Type} (w : Window σ) (listener : ClickFunc σ) : Window σ :=
  { w with onClick := listener }

/-- The method `NotifyClick` (`callback/main.go:16`). -/
def Window.NotifyClick {σ : Type} (w : Window σ) (x y : Int) : Eff σ Unit :=
  if w.onClick.isSome then w.onClick.call x y else pure ()

/-- The struct `MyWindow` (`callback/main.go:40`), which embeds `Window`. -/
structure MyWindow (σ : Type) extends Window σ

/-- The function `CreateMyWindow` (`callback/main.go:44`). -/
def CreateMyWindow : MyWindow Stdout :=
  let win : MyWindow Stdout := { toWindow := Window.zero }
  let listener : ClickFunc Stdout := some (fun x y => drawSolidCircle x y)
  let win : MyWindow Stdout := { win with toWindow := win.toWindow.SetOnClickListener listener }
  win

/-- The function `main` (`callback/main.go:22`). -/
def main : Eff Stdout Unit := do
  let window1 : Window Stdout := Window.zero
  let window1 := window1.SetOnClickListener (some (fun x y => drawDot x y))
  window1.NotifyClick 100 200
  let window2 := CreateMyWindow
  let listener : ClickFunc Stdout := some (fun x y => drawDot x y)
  let window2 : MyWindow Stdout :=
    { window2 with toWindow := window2.toWindow.SetOnClickListener listener }
  window2.toWindow.NotifyClick 100 200

end Callback

/-! ## Observer list (`observer/main.go`) -/

namespace Observer

/-- The struct `Window` (`observer/main.go:5`); the slice of listeners is a
list, the nil slice being the empty list. -/
structure Window (σ : Type) where
  onClickListeners : List (ClickFunc σ)

/-- The zero value `var w Window`. -/
def Window.zero {σ : Type} : Window σ := { onClickListeners := [] }

/-- The method `AddOnClickListener` (`observer/main.go:11`); the updated window
is returned. -/
def Window.AddOnClickListener {σ : Type} (w : Window σ) (listener : ClickFunc σ) : Window σ :=
  { w with onClickListeners := w.onClickListeners ++ [listener] }

/-- The method `NotifyClick` (`observer/main.go:16`): the `range` loop calls
the listeners from first to last. -/
def Window.NotifyClick {σ : Type} (w : Window σ) (x y : Int) : Eff σ Unit :=
  w.onClickListeners.forM (fun listener => listener.call x y)

/-- Registers the listeners of a sequence, in order, on a zero-value window. -/
def register {σ : Type} (ls : List (ClickFunc σ)) : Window σ :=
  ls.foldl Window.AddOnClickListener Window.zero

/-- The struct `MyWindow` (`observer/main.go:22`), which embeds `Window`. -/
structure MyWindow (σ : Type) extends Window σ

/-- The function `NewMyWindow` (`observer/main.go:26`). -/
def NewMyWindow : MyWindow Stdout :=
  let win : MyWindow Stdout := { toWindow := Window.zero }
  let listener : ClickFunc Stdout := some (fun x y => drawSolidCircle x y)
  let win : MyWindow Stdout := { win with toWindow := win.toWindow.AddOnClickListener listener }
  win

/-- The function `main` (`observer/main.go:34`). -/
def main : Eff Stdout Unit := do
  let window2 := NewMyWindow
  let listener : ClickFunc Stdout := some (fun x y => drawDot x y)
  let window2 : MyWindow Stdout :=
    { window2 with toWindow := window2.toWindow.AddOnClickListener listener }
  window2.toWindow.NotifyClick 100 200

end Observer

/-! ## Observer list, with listeners that register listeners (`observer/main.go`) -/

namespace ObserverReentrant

/-- A non-nil listener `func(x, y int)` that may call `AddOnClickListener` on
the window it is registered on while it runs.  From its arguments and the
program state it gives the new program state and the listeners it has added
to the window, in the order of its `AddOnClickListener` calls. -/
inductive Listener (τ : Type) where
  | mk (run : Int → Int → τ → τ × List (Listener τ))

/-- What the listener does when it runs. -/
def Listener.run {τ : Type} : Listener τ → Int → Int → τ → τ × List (Listener τ)
  | Listener.mk run => run

/-- The struct `Window` (`observer/main.go:5`); the slice of listeners is a
list, the nil slice being the empty list. -/
structure Window (τ : Type) where
  onClickListeners : List (Listener τ)

/-- The method `AddOnClickListener` (`observer/main.go:11`); the updated window
is returned. -/
def Window.AddOnClickListener {τ : Type} (w : Window τ) (listener : Listener τ) : Window τ :=
  { w with onClickListeners := w.onClickListeners ++ [listener] }

/-- The Go call `listener(x, y)` inside `NotifyClick`, on the program state and
the window: the listener runs, and each `AddOnClickListener` call it has made
is applied to the window. -/
def Listener.call {τ : Type} (listener : Listener τ) (x y : Int) (st : τ × Window τ) :
    τ × Window τ :=
  ((listener.run x y st.1).1,
    (listener.run x y st.1).2.foldl Window.AddOnClickListener st.2)

/-- The method `NotifyClick` (`observer/main.go:16`), giving the program state
and the window once it has returned.  The range expression `w.onClickListeners`
is evaluated once, before the loop: the loop goes over the slice as it was
then, while the calls of the listeners may assign to the field of the window. -/
def Window.NotifyClick {τ : Type} (w : Window τ) (x y : Int) (u : τ) : τ × Window τ :=
  let listeners := w.onClickListeners
  listeners.foldl (fun st listener => listener.call x y st) (u, w)

/-- Invoking each listener of a list once, in the order of the list: the
program state reached and the listeners added meanwhile, in order.  The
listeners added are not invoked. -/
def invokeAll {τ : Type} : List (Listener τ) → Int → Int → τ → τ × List (Listener τ)
  | [], _, _, u => (u, [])
  | l :: ls, x, y, u =>
    ((invokeAll ls x y (l.run x y u).1).1,
      (l.run x y u).2 ++ (invokeAll ls x y (l.run x y u).1).2)

/-- The listener numbered `i`, over a program state kept next to the record
of the numbers of the listeners invoked: it records `i`, and `code`, its own
code, acts on the program state and adds listeners. -/
def numbered {υ : Type} (i : Nat)
    (code : Int → Int → υ → υ × List (Listener (υ × List Nat))) : Listener (υ × List Nat) :=
  Listener.mk (fun x y s => (((code x y s.1).1, s.2 ++ [i]), (code x y s.1).2))

/-- A window with two listeners: number 1 adds nothing, number 2 adds the
listener number 3 (which adds nothing) each time it runs. -/
def twoListeners : Window (Unit × List Nat) :=
  { onClickListeners :=
      [numbered 1 (fun _ _ u => (u, [])),
       numbered 2 (fun _ _ u => (u, [numbered 3 (fun _ _ u1 => (u1, []))]))] }

end ObserverReentrant

/-! ## Mutually exclusive interfaces (`mutually_exclusive_interfaces/src/main.go`) -/

namespace Widgets

/-- A Go type as it occurs in a method signature: one of the defined types of
the program, or any other type, known by its name.  Two defined types are
identical only when they are the same declaration. -/
inductive GoType where
  | WidgetID
  | Widget
  | WidgetState
  | StatefulWidget
  | StatelessWidget
  | other (name : String)
  deriving DecidableEq, Repr

/-- A method signature: parameter types and result types. -/
structure Signature where
  params : List GoType
  results : List GoType
  deriving DecidableEq, Repr

/-- An interface type: the methods it requires, embedded interfaces included. -/
abbrev Interface : Type := List (String × Signature)

/-- The method set of a type: a type has at most one method of a given name,
so the method set gives for each name the signature of that method, if any. -/
abbrev MethodSet : Type := String → Option Signature

/-- A type implements an interface when its method set has every method of the
interface, with the identical signature. -/
def implements (T : MethodSet) (I : Interface) : Bool :=
  I.all (fun m => decide (T m.1 = some m.2))

/-- The interface `Widget` (`main.go:7`). -/
def Widget : Interface := [("ID", { params := [], results := [GoType.WidgetID] })]

/-- The interface `WidgetState` (`main.go:29`). -/
def WidgetState : Interface := [("Build", { params := [], results := [GoType.Widget] })]

/-- The interface `StatefulWidget` (`main.go:34`). -/
def StatefulWidget : Interface :=
  Widget ++
    [("CreateState", { params := [], results := [GoType.WidgetState] }),
     ("Exclusive", { params := [GoType.StatefulWidget], results := [] })]

/-- The interface `StatelessWidget` (`main.go:42`). -/
def StatelessWidget : Interface :=
  Widget ++
    [("Build", { params := [], results := [GoType.Widget] }),
     ("Exclusive", { params := [GoType.StatelessWidget], results := [] })]

/-- A method of a value: its signature and what a call of it does.  Arguments
and results are left out of the body: `Render` calls methods without
arguments only and drops their results. -/
structure Method (σ : Type) where
  signature : Signature
  body : Eff σ Unit

/-- A non-nil interface value, as `Render` sees it: the methods of its dynamic
type, by name. -/
abbrev Object (σ : Type) : Type := String → Option (Method σ)

/-- The method set of the dynamic type of a value. -/
def Object.methodSet {σ : Type} (v : Object σ) : MethodSet :=
  fun name => (v name).map Method.signature

/-- A call `v.name()` of a method of the value. -/
def Object.invoke {σ : Type} (v : Object σ) (name : String) : Eff σ Unit :=
  match v name with
  | some m => m.body
  | none => Eff.panic nilDereference

/-- The comma-ok type assertion `widget.(I)` on an interface value (`none` is
the nil interface value): it succeeds when the value is not nil and its
dynamic type implements `I`. -/
def typeAssert {σ : Type} (widget : Option (Object σ)) (I : Interface) : Option (Object σ) :=
  match widget with
  | some v => if implements v.methodSet I then some v else none
  | none => none

/-- The methods of `*wiredWidget` (`main.go:59`): `ID`, `CreateState` and
`Build`, none of which has an effect besides its result. -/
def wiredWidget {σ : Type} : Object σ := fun name =>
  [("ID", ({ signature := { params := [], results := [GoType.WidgetID] },
             body := pure () } : Method σ)),
   ("CreateState", { signature := { params := [], results := [GoType.WidgetState] },
                     body := pure () }),
   ("Build", { signature := { params := [], results := [GoType.Widget] },
               body := pure () })].lookup name

/-- The function `Render` (`main.go:77`). -/
def Render {σ : Type} (widget : Option (Object σ)) : Eff σ Unit :=
  match typeAssert widget StatefulWidget with
  | some stateful => do
    let state ← stateful.invoke "CreateState"
    pure state
  | none =>
    match typeAssert widget StatelessWidget with
    | some stateless => do
      let child ← stateless.invoke "Build"
      pure child
    | none => pure ()

/-- The value `v` with every method made to record its name, on entry, in the
list of calls kept next to the program state. -/
def recordCalls {τ : Type} (v : Object τ) : Object (τ × List String) := fun name =>
  (v name).map (fun m =>
    { signature := m.signature,
      body := fun s => ((m.body s.1).1, ((m.body s.1).2, s.2 ++ [name])) })

/-- The function `Render` (`main.go:77`) with its two type assertions tried in
the other order, `StatelessWidget` first. -/
def RenderSwapped {σ : Type} (widget : Option (Object σ)) : Eff σ Unit :=
  match typeAssert widget StatelessWidget with
  | some stateless => do
    let child ← stateless.invoke "Build"
    pure child
  | none =>
    match typeAssert widget StatefulWidget with
    | some stateful => do
      let state ← stateful.invoke "CreateState"
      pure state
    | none => pure ()

/-- A value of a type that declares the methods of `StatefulWidget`: `ID`,
`CreateState` and `Exclusive(StatefulWidget)`. -/
def statefulExample {σ : Type} : Object σ := fun name =>
  [("ID", ({ signature := { params := [], results := [GoType.WidgetID] },
             body := pure () } : Method σ)),
   ("CreateState", { signature := { params := [], results := [GoType.WidgetState] },
                     body := pure () }),
   ("Exclusive", { signature := { params := [GoType.StatefulWidget], results := [] },
                   body := pure () })].lookup name

/-- A value of a type that declares the methods of `StatelessWidget`: `ID`,
`Build` and `Exclusive(StatelessWidget)`. -/
def statelessExample {σ : Type} : Object σ := fun name =>
  [("ID", ({ signature := { params := [], results := [GoType.WidgetID] },
             body := pure () } : Method σ)),
   ("Build", { signature := { params := [], results := [GoType.Widget] },
               body := pure () }),
   ("Exclusive", { signature := { params := [GoType.StatelessWidget], results := [] },
                   body := pure () })].lookup name

end Widgets

/-! ## HTTP middleware (`middleware/main.go`) -/

namespace HttpMiddleware

/-- An `http.ResponseWriter`: the name of the response it writes to. -/
abbrev ResponseWriter : Type := Nat

/-- An `*http.Request`, as far as the program reads it: the path of its URL
and its form values by key (query and body, once parsed). -/
structure Request where
  Path : String
  Form : String → List String

/-- The method `(*http.Request).FormValue`: the first value for the key, the
empty string when there is none. -/
def Request.FormValue (r : Request) (key : String) : String :=
  (r.Form key).head?.getD ""

/-- What the program does to the outside, in order: writing a status line,
writing to a response body, and printing a line to the server log (kept as the
arguments of the `log.Printf` call of the program, path and duration). -/
inductive Event where
  | writeHeader (w : ResponseWriter) (code : Nat)
  | write (w : ResponseWriter) (data : String)
  | logPrintf (path : String) (duration : Int)
  deriving DecidableEq, Repr

/-- The world of the server: the events so far and the clock, given by its
successive readings and the number of readings made. -/
structure World where
  events : List Event
  clock : Nat → Int
  reads : Nat

/-- Appends an event. -/
def emit (e : Event) : Eff World Unit := fun s =>
  (Outcome.returned (), { s with events := s.events ++ [e] })

/-- The constant `http.StatusUnauthorized`. -/
def StatusUnauthorized : Nat := 401

/-- The function `http.StatusText`, for the codes given here; the empty string
for any other code. -/
def StatusText (code : Nat) : String :=
  if code = 200 then "OK"
  else if code = 401 then "Unauthorized"
  else if code = 404 then "Not Found"
  else ""

/-- The call `io.WriteString(w, s)`. -/
def WriteString (w : ResponseWriter) (s : String) : Eff World Unit :=
  emit (Event.write w s)

/-- The function `http.Error`: it writes the status line with the code, then
the message and a newline (the headers it sets are left out). -/
def Error (w : ResponseWriter) (error : String) (code : Nat) : Eff World Unit := do
  emit (Event.writeHeader w code)
  emit (Event.write w (error ++ "\n"))

/-- The function `time.Now`: one reading of the clock. -/
def Now : Eff World Int := fun s =>
  (Outcome.returned (s.clock s.reads), { s with reads := s.reads + 1 })

/-- The function `time.Since`: a reading of the clock, less the start. -/
def Since (start : Int) : Eff World Int := do
  let now ← Now
  pure (now - start)

/-- The type `http.HandlerFunc`, for a non-nil function. -/
abbrev HandlerFunc : Type := ResponseWriter → Request → Eff World Unit

/-- The type `Handler` (`middleware/main.go:10`); `none` is nil.  The argument
`next` is always the closure made by `Use`, a non-nil function. -/
abbrev Handler : Type := Option (ResponseWriter → Request → HandlerFunc → Eff World Unit)

/-- The Go call `handler(w, r, next)`: calling nil panics. -/
def Handler.call (handler : Handler) (w : ResponseWriter) (r : Request) (next : HandlerFunc) :
    Eff World Unit :=
  match handler with
  | some h => h w r next
  | none => Eff.panic nilDereference

/-- The type `Middleware` (`middleware/main.go:12`); `none` is nil. -/
abbrev Middleware : Type := Option HandlerFunc

/-- The Go call `m(w, r)` of a middleware: calling nil panics. -/
def Middleware.call (m : Middleware) (w : ResponseWriter) (r : Request) : Eff World Unit :=
  match m with
  | some f => f w r
  | none => Eff.panic nilDereference

/-- The method `(*Middleware).Use` (`middleware/main.go:14`); the updated
middleware is returned. -/
def Middleware.Use (m : Middleware) (handler : Handler) : Middleware :=
  let old := m
  some (fun w r =>
    let next : HandlerFunc := fun w r =>
      if old.isSome then old.call w r else pure ()
    handler.call w r next)

/-- The base handler of `main` (`middleware/main.go:28`). -/
def hello : HandlerFunc := fun w _ => WriteString w "Hello!"

/-- The authorization middleware of `main` (`middleware/main.go:33`). -/
def authorization (w : ResponseWriter) (r : Request) (next : HandlerFunc) : Eff World Unit :=
  if r.FormValue "user" ≠ "admin" then do
    let code := StatusUnauthorized
    Error w (StatusText code) code
  else
    next w r

/-- The log middleware of `main` (`middleware/main.go:43`). -/
def logging (w : ResponseWriter) (r : Request) (next : HandlerFunc) : Eff World Unit := do
  let start ← Now
  next w r
  let duration ← Since start
  emit (Event.logPrintf r.Path duration)

/-- The variable `rootMiddleware` of `main`, once both middlewares are added
(`middleware/main.go:28-48`). -/
def rootMiddleware : Middleware :=
  let rootMiddleware : Middleware := some hello
  let rootMiddleware := rootMiddleware.Use (some authorization)
  let rootMiddleware := rootMiddleware.Use (some logging)
  rootMiddleware

/-- The log lines among the events, in order. -/
def logLines (events : List Event) : List (String × Int) :=
  events.filterMap (fun e =>
    match e with
    | Event.logPrintf path duration => some (path, duration)
    | _ => none)

/-- A request to `/hello` without any form value. -/
def anonymousRequest : Request := { Path := "/hello", Form := fun _ => [] }

/-- A request to `/hello` with the form value `user=guest`. -/
def guestRequest : Request :=
  { Path := "/hello", Form := fun key => if key = "user" then ["guest"] else [] }

/-- A world without events yet, whose clock reads 0, 1, 2, ... -/
def freshWorld : World := { events := [], clock := fun n => n, reads := 0 }

/-- A request to `/hello` with the form value `user=admin`. -/
def adminRequest : Request :=
  { Path := "/hello", Form := fun key => if key = "user" then ["admin"] else [] }

/-- The two `Use` calls of `main` (`middleware/main.go:33-48`) on a
middleware `base`; `rootMiddleware` is `composed (some hello)`. -/
def composed (base : Middleware) : Middleware :=
  (base.Use (some authorization)).Use (some logging)

/-- The status code of the response `w` given by a run of events: the code of
the first `WriteHeader`, or 200 when the body is written to before any
`WriteHeader`; `none` when nothing is sent. -/
def statusOf (w : ResponseWriter) : List Event → Option Nat
  | [] => none
  | Event.writeHeader w1 code :: es => if w1 = w then some code else statusOf w es
  | Event.write w1 _ :: es => if w1 = w then some 200 else statusOf w es
  | Event.logPrintf _ _ :: es => statusOf w es

/-- The body of the response `w` given by a run of events: what was written
to it, in order. -/
def bodyOf (w : ResponseWriter) : List Event → String
  | [] => ""
  | Event.write w1 data :: es => if w1 = w then data ++ bodyOf w es else bodyOf w es
  | Event.writeHeader _ _ :: es => bodyOf w es
  | Event.logPrintf _ _ :: es => bodyOf w es

end HttpMiddleware

/-! ## Recording handler invocations -/

/-- One recorded invocation: the number of the handler in registration order
(from 1) and the arguments it was called with. -/
abbrev Invocation : Type := Nat × Int × Int

/-- World state made of the program's own state and the record of invocations. -/
abbrev Recorded (τ : Type) : Type := τ × List Invocation

/-- Code of the program itself, which does not touch the record. -/
def liftUser {τ α : Type} (m : Eff τ α) : Eff (Recorded τ) α := fun s =>
  ((m s.1).1, ((m s.1).2, s.2))

/-- Appends an invocation to the record. -/
def record {τ : Type} (i : Nat) (x y : Int) : Eff (Recorded τ) Unit := fun s =>
  (Outcome.returned (), (s.1, s.2 ++ [(i, x, y)]))

/-- The handler `h` made to record its invocation as number `i` on entry. -/
def traced {τ : Type} (i : Nat) (h : HandlerFn (Recorded τ)) : HandlerFn (Recorded τ) :=
  fun x y next => do
    record i x y
    h x y next

/-- Numbers the handlers of a registration sequence from `i` on and makes
each non-nil one record its invocations. -/
def tracedFrom {τ : Type} : Nat → List (ClickHandler (Recorded τ)) → List (ClickHandler (Recorded τ))
  | _, [] => []
  | i, h :: hs => h.map (traced i) :: tracedFrom (i + 1) hs

/-- A handler that never invokes `next`: all it does is run `body`, code of
the program itself. -/
def stopHandler {τ : Type} (body : Int → Int → Eff τ Unit) : HandlerFn (Recorded τ) :=
  fun x y _ => liftUser (body x y)

/-- What a handler that invokes `next` exactly once does, as functions of its
arguments and of the program state on entry: the state in which it calls
`next`, the arguments it gives to `next`, and the code it runs once `next` has
returned. -/
structure PassOnce (τ : Type) where
  before : Int → Int → τ → τ
  args : Int → Int → τ → Int × Int
  after : Int → Int → τ → Eff τ Unit

/-- The handler that invokes `next` exactly once as described by `p`. -/
def passHandler {τ : Type} (p : PassOnce τ) : HandlerFn (Recorded τ) :=
  fun x y next s =>
    let u := s.1
    (do
      liftUser (fun _ => (Outcome.returned (), p.before x y u))
      next (p.args x y u).1 (p.args x y u).2
      liftUser (p.after x y u)) s

/-- The numbers of the handlers invoked, in order of invocation. -/
def invokedNumbers {τ : Type} (s : Recorded τ) : List Nat := s.2.map Prod.fst

/-- The listener `l`, code of the program itself, made to record its
invocation as number `i` on entry. -/
def tracedListener {τ : Type} (i : Nat) (l : Int → Int → Eff τ Unit) :
    Int → Int → Eff (Recorded τ) Unit :=
  fun x y => do
    record i x y
    liftUser (l x y)

/-- Numbers the listeners of a registration sequence from `i` on and makes
each one record its invocations. -/
def tracedListenersFrom {τ : Type} :
    Nat → List (Int → Int → Eff τ Unit) → List (ClickFunc (Recorded τ))
  | _, [] => []
  | i, l :: ls => some (tracedListener i l) :: tracedListenersFrom (i + 1) ls

/-- A `next` that returns at once: it does nothing and does not fail. -/
def noopNext {σ : Type} : Int → Int → Eff σ Unit := fun _ _ => pure ()

/-! ## Theorems -/

/-! ### Running effectful code -/

theorem eff_bind_returned {σ α β : Type} (m : Eff σ α) (f : α → Eff σ β) (s s1 : σ) (a : α)
    (h : m s = (Outcome.returned a, s1)) : (m >>= f) s = f a s1 := by
  show Eff.seq m f s = f a s1
  simp [Eff.seq, h]

theorem tracedListener_run {τ : Type} (i : Nat) (l : Int → Int → Eff τ Unit) (x y : Int)
    (s : Recorded τ) :
    tracedListener i l x y s = ((l x y s.1).1, ((l x y s.1).2, s.2 ++ [(i, x, y)])) := rfl

/-! ### The two chains -/

theorem chainList_notify_add {σ : Type} (w : ChainList.Window σ) (h : ClickHandler σ) (x y : Int) :
    (w.AddOnClickHandler h).NotifyClick x y = h.call x y w.NotifyClick := rfl

theorem chain_notify_add {σ : Type} (w : Chain.Window σ) (h : ClickHandler σ) (x y : Int) :
    (w.AddOnClickHandler h).NotifyClick x y = h.call x y w.NotifyClick := rfl

theorem foldl_add_agree {σ : Type} (hs : List (ClickHandler σ)) :
    ∀ (wl : ChainList.Window σ) (wc : Chain.Window σ), wl.NotifyClick = wc.NotifyClick →
      (hs.foldl ChainList.Window.AddOnClickHandler wl).NotifyClick
        = (hs.foldl Chain.Window.AddOnClickHandler wc).NotifyClick := by
  induction hs with
  | nil => intro wl wc h; exact h
  | cons h hs ih =>
    intro wl wc hw
    apply ih
    funext x y
    rw [chainList_notify_add, chain_notify_add, hw]

theorem register_agree {σ : Type} (hs : List (ClickHandler σ)) :
    (ChainList.register hs).NotifyClick = (Chain.register hs).NotifyClick :=
  foldl_add_agree hs _ _ (by funext x y; rfl)

/-- C1: the linked-list chain and the closure chain are equivalent.  For every
sequence of handlers registered in the same order on a zero-value window and
every click, `NotifyClick` is the same computation in both programs (same
outcome and same final state from every initial state); in particular, when
the handlers record their invocations, the two records (which handler, with
which arguments, in which order) are the same. -/
theorem C1_list_and_closure_chain_equivalent :
    (∀ (σ : Type) (hs : List (HandlerFn σ)) (x y : Int) (s : σ),
      (ChainList.register (hs.map some)).NotifyClick x y s
        = (Chain.register (hs.map some)).NotifyClick x y s) ∧
    (∀ (τ : Type) (hs : List (HandlerFn (Recorded τ))) (x y : Int) (s : Recorded τ),
      ((ChainList.register (tracedFrom 1 (hs.map some))).NotifyClick x y s).2.2
        = ((Chain.register (tracedFrom 1 (hs.map some))).NotifyClick x y s).2.2) := by
  constructor
  · intro σ hs x y s
    rw [register_agree]
  · intro τ hs x y s
    rw [register_agree]

/-- C2: chain prepend law, in both programs.  After `AddOnClickHandler(h)` with
a non-nil `h`, `NotifyClick(x, y)` is the call `h(x, y, next)` where `next` is
the `NotifyClick` of the window before the addition. -/
theorem C2_chain_prepend_law {σ : Type} (h : HandlerFn σ) (x y : Int) :
    (∀ w : ChainList.Window σ,
      (w.AddOnClickHandler (some h)).NotifyClick x y = h x y (fun a b => w.NotifyClick a b)) ∧
    (∀ w : Chain.Window σ,
      (w.AddOnClickHandler (some h)).NotifyClick x y = h x y (fun a b => w.NotifyClick a b)) :=
  ⟨fun _ => rfl, fun _ => rfl⟩

/-! ### Suppression -/

theorem tracedFrom_append {τ : Type} (a b : List (ClickHandler (Recorded τ))) :
    ∀ i, tracedFrom i (a ++ b) = tracedFrom i a ++ tracedFrom (i + a.length) b := by
  induction a with
  | nil => intro i; simp [tracedFrom]
  | cons h a ih =>
    intro i
    have e : i + 1 + a.length = i + (a.length + 1) := by omega
    simp [tracedFrom, ih (i + 1), e]

theorem notify_stop {τ : Type} (w : ChainList.Window (Recorded τ)) (i : Nat)
    (body : Int → Int → Eff τ Unit) (x y : Int) (s : Recorded τ) :
    invokedNumbers ((w.AddOnClickHandler (some (traced i (stopHandler body)))).NotifyClick x y s).2
      = invokedNumbers s ++ [i] := by
  rw [chainList_notify_add]
  simp [ClickHandler.call, traced, stopHandler, record, liftUser, invokedNumbers, bind, Eff.seq]

theorem notify_pass {τ : Type} (w : ChainList.Window (Recorded τ)) (i : Nat) (p : PassOnce τ)
    (D : List Nat)
    (hw : ∀ x y s, invokedNumbers (w.NotifyClick x y s).2 = invokedNumbers s ++ D)
    (x y : Int) (s : Recorded τ) :
    invokedNumbers ((w.AddOnClickHandler (some (traced i (passHandler p)))).NotifyClick x y s).2
      = invokedNumbers s ++ i :: D := by
  rw [chainList_notify_add]
  simp only [ClickHandler.call, traced, passHandler, record, liftUser, bind, Eff.seq]
  have h := hw (p.args x y s.1).1 (p.args x y s.1).2 (p.before x y s.1, s.2 ++ [(i, x, y)])
  revert h
  cases w.NotifyClick (p.args x y s.1).1 (p.args x y s.1).2 (p.before x y s.1, s.2 ++ [(i, x, y)]) with
  | mk o s1 =>
    cases o <;> simp [invokedNumbers]

theorem notify_pass_all {τ : Type} (late : List (PassOnce τ)) :
    ∀ (i : Nat) (w : ChainList.Window (Recorded τ)) (D : List Nat),
      (∀ x y s, invokedNumbers (w.NotifyClick x y s).2 = invokedNumbers s ++ D) →
      ∀ x y s, invokedNumbers
        (((tracedFrom i (late.map (fun p => some (passHandler p)))).foldl
            ChainList.Window.AddOnClickHandler w).NotifyClick x y s).2
          = invokedNumbers s ++ ((List.range' i late.length).reverse ++ D) := by
  induction late with
  | nil => intro i w D hw x y s; simpa [tracedFrom] using hw x y s
  | cons p late ih =>
    intro i w D hw x y s
    have h := ih (i + 1) _ (i :: D) (notify_pass w i p D hw) x y s
    simpa [tracedFrom, List.range'_succ] using h

theorem suppression_list {τ : Type} (early : List (ClickHandler (Recorded τ)))
    (body : Int → Int → Eff τ Unit) (late : List (PassOnce τ)) (x y : Int) (s : Recorded τ) :
    invokedNumbers ((ChainList.register (tracedFrom 1
        (early ++ some (stopHandler body) :: late.map (fun p => some (passHandler p))))).NotifyClick x y s).2
      = invokedNumbers s ++ (List.range' (early.length + 1) (late.length + 1)).reverse := by
  have h := notify_pass_all late (early.length + 2)
    ((ChainList.register (tracedFrom 1 early)).AddOnClickHandler
      (some (traced (early.length + 1) (stopHandler body)))) [early.length + 1]
    (notify_stop _ _ body) x y s
  have e1 : 1 + early.length = early.length + 1 := by omega
  have e2 : 1 + early.length + 1 = early.length + 2 := by omega
  simpa [ChainList.register, tracedFrom_append, tracedFrom, List.range'_succ, e1, e2] using h

/-- C3: chain suppression, in both programs.  Let `h1..hn` be registered in
order, where `hk` (number `early.length + 1`) never invokes `next`, each later
handler invokes `next` exactly once, and the earlier handlers `early` are
arbitrary.  Then `NotifyClick` invokes `hn, ..., hk`, once each, in that order,
and none of the earlier handlers: the numbers recorded are `n, n-1, ..., k`. -/
theorem C3_chain_suppression {τ : Type} (early : List (ClickHandler (Recorded τ)))
    (body : Int → Int → Eff τ Unit) (late : List (PassOnce τ)) (x y : Int) (s : Recorded τ) :
    invokedNumbers ((ChainList.register (tracedFrom 1
        (early ++ some (stopHandler body) :: late.map (fun p => some (passHandler p))))).NotifyClick x y s).2
      = invokedNumbers s ++ (List.range' (early.length + 1) (late.length + 1)).reverse ∧
    invokedNumbers ((Chain.register (tracedFrom 1
        (early ++ some (stopHandler body) :: late.map (fun p => some (passHandler p))))).NotifyClick x y s).2
      = invokedNumbers s ++ (List.range' (early.length + 1) (late.length + 1)).reverse := by
  refine ⟨suppression_list early body late x y s, ?_⟩
  rw [← register_agree]
  exact suppression_list early body late x y s

/-! ### Observer list -/

theorem observer_foldl_add_listeners {σ : Type} (ls : List (ClickFunc σ)) :
    ∀ w : Observer.Window σ,
      (ls.foldl Observer.Window.AddOnClickListener w).onClickListeners = w.onClickListeners ++ ls := by
  induction ls with
  | nil => intro w; simp
  | cons l ls ih => intro w; simp [ih, Observer.Window.AddOnClickListener]

theorem observer_register_listeners {σ : Type} (ls : List (ClickFunc σ)) :
    (Observer.register ls).onClickListeners = ls := by
  simp [Observer.register, observer_foldl_add_listeners, Observer.Window.zero]

theorem forM_traced_listeners {τ : Type} (ls : List (Int → Int → Eff τ Unit))
    (hret : ∀ l ∈ ls, ∀ a b u, (l a b u).1 = Outcome.returned ()) (x y : Int) :
    ∀ (i : Nat) (s : Recorded τ),
      ((tracedListenersFrom i ls).forM (fun listener => listener.call x y) s).1 = Outcome.returned () ∧
      ((tracedListenersFrom i ls).forM (fun listener => listener.call x y) s).2.2
        = s.2 ++ (List.range' i ls.length).map (fun j => (j, x, y)) := by
  induction ls with
  | nil => intro i s; simp [tracedListenersFrom, pure, Eff.ret]
  | cons l ls ih =>
    intro i s
    have hl := hret l (List.mem_cons_self _ _) x y s.1
    have h := ih (fun l1 h1 => hret l1 (List.mem_cons_of_mem _ h1)) (i + 1)
      ((l x y s.1).2, s.2 ++ [(i, x, y)])
    have hrun : tracedListener i l x y s
        = (Outcome.returned (), ((l x y s.1).2, s.2 ++ [(i, x, y)])) := by
      rw [tracedListener_run, hl]
    have hstep : (tracedListenersFrom i (l :: ls)).forM (fun listener => listener.call x y) s
        = (tracedListenersFrom (i + 1) ls).forM (fun listener => listener.call x y)
            ((l x y s.1).2, s.2 ++ [(i, x, y)]) := by
      simp only [tracedListenersFrom, List.forM_cons]
      exact eff_bind_returned _ _ _ _ _ hrun
    rw [hstep]
    simpa [List.range'_succ] using h

/-- C4 as stated, for every sequence of listeners, does not hold: the loop of
`NotifyClick` ends at a nil listener and at a listener that panics, and the
listeners registered after it are not invoked.  With the circle listener, nil
and the dot listener registered in this order, `NotifyClick(100, 200)` panics
on the nil listener once the circle line is printed, and the only invocation
recorded is that of listener 1.  With a listener that panics registered before
the dot listener, only listener 1 is recorded, not the two invocations that
the statement gives. -/
theorem C4_observer_loop_ends_at_panic :
    (Observer.register
        [some (tracedListener 1 drawSolidCircle), none,
         some (tracedListener 3 drawDot)]).NotifyClick 100 200 ([], [])
      = (Outcome.panicked nilDereference,
          (["Draw a solid circle at (100, 200)\n"], [(1, 100, 200)])) ∧
    (Observer.register (tracedListenersFrom 1
        [fun _ _ => Eff.panic "listener panics", drawDot])).NotifyClick 100 200 ([], [])
      = (Outcome.panicked "listener panics", ([], [(1, 100, 200)])) ∧
    ((Observer.register (tracedListenersFrom 1
        [fun _ _ => Eff.panic "listener panics", drawDot])).NotifyClick 100 200 ([], [])).2.2
      ≠ [] ++ (List.range' 1 2).map (fun j => (j, 100, 200)) := by
  refine ⟨by rfl, by rfl, by decide⟩

/-- C4, amended: observer list.  Listeners `l1..lN` that are non-nil functions
and return normally are registered in order on a zero-value window and record
their invocations.  Then `NotifyClick(x, y)` returns normally and the
invocations recorded are `l1, l2, ..., lN` in registration order, once each,
each with the arguments `(x, y)`.  With no listener registered it does
nothing. -/
theorem C4_observer_notifies_in_order {τ : Type} (ls : List (Int → Int → Eff τ Unit))
    (hret : ∀ l ∈ ls, ∀ a b u, (l a b u).1 = Outcome.returned ()) (x y : Int) (s : Recorded τ) :
    ((Observer.register (tracedListenersFrom 1 ls)).NotifyClick x y s).1 = Outcome.returned () ∧
    ((Observer.register (tracedListenersFrom 1 ls)).NotifyClick x y s).2.2
      = s.2 ++ (List.range' 1 ls.length).map (fun j => (j, x, y)) ∧
    (Observer.register ([] : List (ClickFunc (Recorded τ)))).NotifyClick x y s
      = (Outcome.returned (), s) := by
  have h := forM_traced_listeners ls hret x y 1 s
  refine ⟨?_, ?_, rfl⟩
  · simpa [Observer.Window.NotifyClick, observer_register_listeners] using h.1
  · simpa [Observer.Window.NotifyClick, observer_register_listeners] using h.2

/-- C4 amended, at the two listeners of the observer program, click
`(100, 200)`. -/
theorem C4_observer_notifies_in_order_witness :
    (∀ l ∈ [drawSolidCircle, drawDot], ∀ a b u, (l a b u).1 = Outcome.returned ()) ∧
    ((Observer.register (tracedListenersFrom 1 [drawSolidCircle, drawDot])).NotifyClick
        100 200 ([], [])).1 = Outcome.returned () ∧
    ((Observer.register (tracedListenersFrom 1 [drawSolidCircle, drawDot])).NotifyClick
        100 200 ([], [])).2.2
      = [] ++ (List.range' 1 [drawSolidCircle, drawDot].length).map (fun j => (j, 100, 200)) ∧
    (Observer.register ([] : List (ClickFunc (Recorded Stdout)))).NotifyClick 100 200 ([], [])
      = (Outcome.returned (), ([], [])) :=
  have hret : ∀ l ∈ [drawSolidCircle, drawDot], ∀ a b u, (l a b u).1 = Outcome.returned () := by
    intro l hl a b u
    simp only [List.mem_cons, List.mem_singleton, List.not_mem_nil, or_false] at hl
    rcases hl with rfl | rfl <;> rfl
  ⟨hret, C4_observer_notifies_in_order [drawSolidCircle, drawDot] hret 100 200 ([], [])⟩

/-! ### Single callback -/

/-- C5: single callback overwrite.  After `SetOnClickListener(f)` followed by
`SetOnClickListener(g)`, `NotifyClick(x, y)` is exactly the call `g(x, y)`,
whatever `f` is; when both listeners record their invocations, the only
invocation recorded is that of `g`, once, with `(x, y)`.  The `main` of the
callback program prints the dot line twice (for `window1` and for `window2`)
and never the solid circle line. -/
theorem C5_callback_overwrite :
    (∀ (σ : Type) (w : Callback.Window σ) (f g : Int → Int → Eff σ Unit) (x y : Int),
      ((w.SetOnClickListener (some f)).SetOnClickListener (some g)).NotifyClick x y = g x y) ∧
    (∀ (τ : Type) (w : Callback.Window (Recorded τ)) (f g : Int → Int → Eff τ Unit) (x y : Int)
        (s : Recorded τ),
      (((w.SetOnClickListener (some (tracedListener 1 f))).SetOnClickListener
          (some (tracedListener 2 g))).NotifyClick x y s).2.2 = s.2 ++ [(2, x, y)]) ∧
    Callback.main [] = (Outcome.returned (),
      ["Draw a dot at (100, 200)\n", "Draw a dot at (100, 200)\n"]) ∧
    "Draw a solid circle at (100, 200)\n" ∉ (Callback.main []).2 :=
  ⟨fun _ _ _ _ _ _ => rfl, fun _ _ _ _ _ _ _ => rfl, by rfl, by decide⟩

/-- C6: single callback, no registration.  On a zero-value window,
`NotifyClick(x, y)` returns normally and leaves the state of the world as it
was: nothing is invoked and nothing is printed.  (`NotifyClick` has no
assignment to the window, which is why it returns no updated window.) -/
theorem C6_callback_zero_window_noop {σ : Type} (x y : Int) (s : σ) :
    (Callback.Window.zero : Callback.Window σ).NotifyClick x y s = (Outcome.returned (), s) :=
  rfl

/-! ### Empty chain -/

/-- C7: empty chain.  On a zero-value window, `NotifyClick(x, y)` returns
normally and leaves the state of the world as it was, in the linked-list chain
(`Call` on the nil head returns at once) and in the closure chain (the nil
`onClickChain` is not called). -/
theorem C7_empty_chain_noop {σ : Type} (x y : Int) (s : σ) :
    ((ChainList.Window.zero : ChainList.Window σ).NotifyClick x y s = (Outcome.returned (), s) ∧
      (ChainList.onClickChainItem.nil : ChainList.onClickChainItem σ).Call x y s
        = (Outcome.returned (), s)) ∧
    (Chain.Window.zero : Chain.Window σ).NotifyClick x y s = (Outcome.returned (), s) :=
  ⟨⟨rfl, rfl⟩, rfl⟩

/-! ### Mutually exclusive interfaces -/

/-- C8: `StatefulWidget` and `StatelessWidget` are mutually exclusive.  The
method set of a type gives at most one signature for the name `Exclusive`; the
two interfaces require `Exclusive(StatefulWidget)` and
`Exclusive(StatelessWidget)`, which are different signatures; hence no type
implements both interfaces. -/
theorem C8_stateful_stateless_exclusive :
    (Widgets.StatefulWidget.lookup "Exclusive"
      = some { params := [Widgets.GoType.StatefulWidget], results := [] }) ∧
    (Widgets.StatelessWidget.lookup "Exclusive"
      = some { params := [Widgets.GoType.StatelessWidget], results := [] }) ∧
    Widgets.StatefulWidget.lookup "Exclusive" ≠ Widgets.StatelessWidget.lookup "Exclusive" ∧
    ∀ T : Widgets.MethodSet,
      ¬ (Widgets.implements T Widgets.StatefulWidget = true ∧
          Widgets.implements T Widgets.StatelessWidget = true) := by
  refine ⟨by decide, by decide, by decide, ?_⟩
  intro T h
  simp only [Widgets.implements, Widgets.StatefulWidget, Widgets.StatelessWidget, Widgets.Widget,
    List.cons_append, List.nil_append, List.all_cons, List.all_nil, Bool.and_true,
    Bool.and_eq_true, decide_eq_true_eq] at h
  obtain ⟨⟨_, _, h1⟩, ⟨_, _, h2⟩⟩ := h
  rw [h1] at h2
  exact absurd h2 (by decide)

/-- C9: a type with the generic capabilities and no marker method falls into
the default branch.  `wiredWidget` (methods `ID`, `CreateState` and `Build`, no
`Exclusive`) implements neither `StatefulWidget` nor `StatelessWidget`, and
`Render` of a `wiredWidget` value returns with nothing done: with every method
of the value recording its calls, no call is recorded. -/
theorem C9_wiredWidget_default_branch :
    (Widgets.wiredWidget : Widgets.Object Unit).methodSet "Exclusive" = none ∧
    Widgets.implements (Widgets.wiredWidget : Widgets.Object Unit).methodSet
      Widgets.StatefulWidget = false ∧
    Widgets.implements (Widgets.wiredWidget : Widgets.Object Unit).methodSet
      Widgets.StatelessWidget = false ∧
    ∀ (τ : Type) (s : τ × List String),
      Widgets.Render (some (Widgets.recordCalls Widgets.wiredWidget)) s
        = (Outcome.returned (), s) := by
  refine ⟨by decide, by decide, by decide, ?_⟩
  intro τ s
  rfl

/-! ### HTTP middleware -/

/-- C10 as stated does not hold: the request to `/hello` without a form value
`user` is not authorized, and the log line is printed for it, once, with the
path `/hello` and the duration read from the clock. -/
theorem C10_unauthorized_request_logged_example :
    HttpMiddleware.anonymousRequest.FormValue "user" ≠ "admin" ∧
    HttpMiddleware.logLines
      (HttpMiddleware.rootMiddleware.call 0 HttpMiddleware.anonymousRequest
        HttpMiddleware.freshWorld).2.events = [("/hello", 1)] := by
  constructor
  · decide
  · rfl

/-- C10, amended: for every request to the composed `rootMiddleware` whose
form value `user` is not `admin`, the log middleware, added last and hence
run first, prints its log line exactly once, after the authorization
middleware has written the 401 response. -/
theorem C10_unauthorized_request_logged_once (w : HttpMiddleware.ResponseWriter)
    (r : HttpMiddleware.Request) (s : HttpMiddleware.World)
    (hne : r.FormValue "user" ≠ "admin") :
    (HttpMiddleware.rootMiddleware.call w r s).1 = Outcome.returned () ∧
    (HttpMiddleware.rootMiddleware.call w r s).2.events
      = s.events ++
        [HttpMiddleware.Event.writeHeader w 401,
         HttpMiddleware.Event.write w "Unauthorized\n",
         HttpMiddleware.Event.logPrintf r.Path (s.clock (s.reads + 1) - s.clock s.reads)] ∧
    HttpMiddleware.logLines (HttpMiddleware.rootMiddleware.call w r s).2.events
      = HttpMiddleware.logLines s.events
        ++ [(r.Path, s.clock (s.reads + 1) - s.clock s.reads)] := by
  have hrun : HttpMiddleware.rootMiddleware.call w r s
      = (Outcome.returned (),
          { events := s.events ++
              [HttpMiddleware.Event.writeHeader w 401,
               HttpMiddleware.Event.write w "Unauthorized\n",
               HttpMiddleware.Event.logPrintf r.Path (s.clock (s.reads + 1) - s.clock s.reads)],
            clock := s.clock, reads := s.reads + 2 }) := by
    simp [HttpMiddleware.rootMiddleware, HttpMiddleware.Middleware.Use,
      HttpMiddleware.Middleware.call, HttpMiddleware.Handler.call, HttpMiddleware.logging,
      HttpMiddleware.authorization, hne, HttpMiddleware.Error, HttpMiddleware.emit,
      HttpMiddleware.Now, HttpMiddleware.Since, HttpMiddleware.StatusUnauthorized,
      HttpMiddleware.StatusText, bind, pure, Eff.seq, Eff.ret]
  rw [hrun]
  simp [HttpMiddleware.logLines, List.filterMap_append]

/-- C10 amended, at the request to `/hello` with `user=guest`. -/
theorem C10_unauthorized_request_logged_once_witness :
    HttpMiddleware.guestRequest.FormValue "user" ≠ "admin" ∧
    ((HttpMiddleware.rootMiddleware.call 0 HttpMiddleware.guestRequest
        HttpMiddleware.freshWorld).1 = Outcome.returned () ∧
    (HttpMiddleware.rootMiddleware.call 0 HttpMiddleware.guestRequest
        HttpMiddleware.freshWorld).2.events
      = HttpMiddleware.freshWorld.events ++
        [HttpMiddleware.Event.writeHeader 0 401,
         HttpMiddleware.Event.write 0 "Unauthorized\n",
         HttpMiddleware.Event.logPrintf HttpMiddleware.guestRequest.Path
          (HttpMiddleware.freshWorld.clock (HttpMiddleware.freshWorld.reads + 1)
            - HttpMiddleware.freshWorld.clock HttpMiddleware.freshWorld.reads)] ∧
    HttpMiddleware.logLines (HttpMiddleware.rootMiddleware.call 0 HttpMiddleware.guestRequest
        HttpMiddleware.freshWorld).2.events
      = HttpMiddleware.logLines HttpMiddleware.freshWorld.events
        ++ [(HttpMiddleware.guestRequest.Path,
            HttpMiddleware.freshWorld.clock (HttpMiddleware.freshWorld.reads + 1)
              - HttpMiddleware.freshWorld.clock HttpMiddleware.freshWorld.reads)]) :=
  ⟨by decide, C10_unauthorized_request_logged_once 0 HttpMiddleware.guestRequest
    HttpMiddleware.freshWorld (by decide)⟩

theorem composed_unauthorized_run (base : HttpMiddleware.Middleware)
    (w : HttpMiddleware.ResponseWriter) (r : HttpMiddleware.Request) (s : HttpMiddleware.World)
    (hne : r.FormValue "user" ≠ "admin") :
    (HttpMiddleware.composed base).call w r s
      = (Outcome.returned (),
          { events := s.events ++
              [HttpMiddleware.Event.writeHeader w 401,
               HttpMiddleware.Event.write w "Unauthorized\n",
               HttpMiddleware.Event.logPrintf r.Path (s.clock (s.reads + 1) - s.clock s.reads)],
            clock := s.clock, reads := s.reads + 2 }) := by
  simp [HttpMiddleware.composed, HttpMiddleware.Middleware.Use,
    HttpMiddleware.Middleware.call, HttpMiddleware.Handler.call, HttpMiddleware.logging,
    HttpMiddleware.authorization, hne, HttpMiddleware.Error, HttpMiddleware.emit,
    HttpMiddleware.Now, HttpMiddleware.Since, HttpMiddleware.StatusUnauthorized,
    HttpMiddleware.StatusText, bind, pure, Eff.seq, Eff.ret]

theorem root_authorized_run (w : HttpMiddleware.ResponseWriter) (r : HttpMiddleware.Request)
    (s : HttpMiddleware.World) (heq : r.FormValue "user" = "admin") :
    HttpMiddleware.rootMiddleware.call w r s
      = (Outcome.returned (),
          { events := s.events ++
              [HttpMiddleware.Event.write w "Hello!",
               HttpMiddleware.Event.logPrintf r.Path (s.clock (s.reads + 1) - s.clock s.reads)],
            clock := s.clock, reads := s.reads + 2 }) := by
  simp [HttpMiddleware.rootMiddleware, HttpMiddleware.Middleware.Use,
    HttpMiddleware.Middleware.call, HttpMiddleware.Handler.call, HttpMiddleware.logging,
    HttpMiddleware.authorization, heq, HttpMiddleware.hello, HttpMiddleware.WriteString,
    HttpMiddleware.emit, HttpMiddleware.Now, HttpMiddleware.Since, bind, pure, Eff.seq, Eff.ret]

/-- C11: middleware, unauthorized request, short-circuit.  For every request
whose form value `user` is not `admin`, the events added by the composed
middleware are the same whatever the base handler is (the base handler is not
invoked), the response they give has status 401 and the body `Unauthorized`,
and `Hello!` is not written.  `rootMiddleware` is the composition over the
base handler `hello`. -/
theorem C11_unauthorized_request_short_circuit (w : HttpMiddleware.ResponseWriter)
    (r : HttpMiddleware.Request) (s : HttpMiddleware.World)
    (hne : r.FormValue "user" ≠ "admin") :
    HttpMiddleware.rootMiddleware = HttpMiddleware.composed (some HttpMiddleware.hello) ∧
    ∃ added : List HttpMiddleware.Event,
      (∀ base : HttpMiddleware.Middleware,
        ((HttpMiddleware.composed base).call w r s).1 = Outcome.returned () ∧
        ((HttpMiddleware.composed base).call w r s).2.events = s.events ++ added) ∧
      HttpMiddleware.statusOf w added = some HttpMiddleware.StatusUnauthorized ∧
      HttpMiddleware.bodyOf w added = "Unauthorized\n" ∧
      (∀ w1, HttpMiddleware.Event.write w1 "Hello!" ∉ added) := by
  refine ⟨rfl, [HttpMiddleware.Event.writeHeader w 401,
    HttpMiddleware.Event.write w "Unauthorized\n",
    HttpMiddleware.Event.logPrintf r.Path (s.clock (s.reads + 1) - s.clock s.reads)], ?_, ?_, ?_, ?_⟩
  · intro base
    rw [composed_unauthorized_run base w r s hne]
    exact ⟨rfl, rfl⟩
  · simp [HttpMiddleware.statusOf, HttpMiddleware.StatusUnauthorized]
  · simp [HttpMiddleware.bodyOf]
  · intro w1
    simp

/-- C11 at the request to `/hello` with `user=guest`. -/
theorem C11_unauthorized_request_short_circuit_witness :
    HttpMiddleware.guestRequest.FormValue "user" ≠ "admin" ∧
    (HttpMiddleware.rootMiddleware = HttpMiddleware.composed (some HttpMiddleware.hello) ∧
    ∃ added : List HttpMiddleware.Event,
      (∀ base : HttpMiddleware.Middleware,
        ((HttpMiddleware.composed base).call 0 HttpMiddleware.guestRequest
          HttpMiddleware.freshWorld).1 = Outcome.returned () ∧
        ((HttpMiddleware.composed base).call 0 HttpMiddleware.guestRequest
          HttpMiddleware.freshWorld).2.events = HttpMiddleware.freshWorld.events ++ added) ∧
      HttpMiddleware.statusOf 0 added = some HttpMiddleware.StatusUnauthorized ∧
      HttpMiddleware.bodyOf 0 added = "Unauthorized\n" ∧
      (∀ w1, HttpMiddleware.Event.write w1 "Hello!" ∉ added)) :=
  ⟨by decide, C11_unauthorized_request_short_circuit 0 HttpMiddleware.guestRequest
    HttpMiddleware.freshWorld (by decide)⟩

/-- C12: middleware, authorized request.  For every request whose form value
`user` is `admin`, the composed `rootMiddleware` returns normally and adds
exactly two events, in this order: the write of `Hello!` to the response, then
one log line with the path of the request.  The response so given has the
body `Hello!` and, no status having been written, the status 200. -/
theorem C12_authorized_request (w : HttpMiddleware.ResponseWriter)
    (r : HttpMiddleware.Request) (s : HttpMiddleware.World)
    (heq : r.FormValue "user" = "admin") :
    ∃ duration : Int,
      (HttpMiddleware.rootMiddleware.call w r s).1 = Outcome.returned () ∧
      (HttpMiddleware.rootMiddleware.call w r s).2.events
        = s.events ++ [HttpMiddleware.Event.write w "Hello!",
                       HttpMiddleware.Event.logPrintf r.Path duration] ∧
      HttpMiddleware.bodyOf w [HttpMiddleware.Event.write w "Hello!",
                               HttpMiddleware.Event.logPrintf r.Path duration] = "Hello!" ∧
      HttpMiddleware.statusOf w [HttpMiddleware.Event.write w "Hello!",
                                 HttpMiddleware.Event.logPrintf r.Path duration] = some 200 ∧
      HttpMiddleware.logLines [HttpMiddleware.Event.write w "Hello!",
                               HttpMiddleware.Event.logPrintf r.Path duration]
        = [(r.Path, duration)] := by
  refine ⟨s.clock (s.reads + 1) - s.clock s.reads, ?_, ?_, ?_, ?_, ?_⟩
  · rw [root_authorized_run w r s heq]
  · rw [root_authorized_run w r s heq]
  · simp [HttpMiddleware.bodyOf]
  · simp [HttpMiddleware.statusOf]
  · simp [HttpMiddleware.logLines]

/-- C12 at the request to `/hello` with `user=admin`. -/
theorem C12_authorized_request_witness :
    HttpMiddleware.adminRequest.FormValue "user" = "admin" ∧
    ∃ duration : Int,
      (HttpMiddleware.rootMiddleware.call 0 HttpMiddleware.adminRequest
        HttpMiddleware.freshWorld).1 = Outcome.returned () ∧
      (HttpMiddleware.rootMiddleware.call 0 HttpMiddleware.adminRequest
        HttpMiddleware.freshWorld).2.events
        = HttpMiddleware.freshWorld.events ++ [HttpMiddleware.Event.write 0 "Hello!",
            HttpMiddleware.Event.logPrintf HttpMiddleware.adminRequest.Path duration] ∧
      HttpMiddleware.bodyOf 0 [HttpMiddleware.Event.write 0 "Hello!",
          HttpMiddleware.Event.logPrintf HttpMiddleware.adminRequest.Path duration] = "Hello!" ∧
      HttpMiddleware.statusOf 0 [HttpMiddleware.Event.write 0 "Hello!",
          HttpMiddleware.Event.logPrintf HttpMiddleware.adminRequest.Path duration] = some 200 ∧
      HttpMiddleware.logLines [HttpMiddleware.Event.write 0 "Hello!",
          HttpMiddleware.Event.logPrintf HttpMiddleware.adminRequest.Path duration]
        = [(HttpMiddleware.adminRequest.Path, duration)] :=
  ⟨by decide, C12_authorized_request 0 HttpMiddleware.adminRequest
    HttpMiddleware.freshWorld (by decide)⟩

/-! ### The example programs -/

/-- C13: the `main` of the observer program, run on an empty standard output,
prints the solid circle line and then the dot line: the listener added in
`main` is appended to the one of `NewMyWindow`, which is still invoked, first. -/
theorem C13_observer_main_prints_both :
    Observer.main [] = (Outcome.returned (),
      ["Draw a solid circle at (100, 200)\n", "Draw a dot at (100, 200)\n"]) ∧
    (Observer.main []).2 ≠ ["Draw a dot at (100, 200)\n"] ∧
    "Draw a solid circle at (100, 200)\n" ∈ (Observer.main []).2 := by
  refine ⟨by rfl, by decide, by decide⟩

/-- C14: the `main` of the linked-list chain program and the `main` of the
closure chain program, run on an empty standard output, both return normally
having printed exactly two lines, the line from (90, 200) to (110, 200) and
then the solid circle at (100, 200). -/
theorem C14_chain_mains_print_line_then_circle :
    ChainList.main [] = (Outcome.returned (),
      ["Draw a line from (90, 200) to (110, 200)\n", "Draw a solid circle at (100, 200)\n"]) ∧
    Chain.main [] = (Outcome.returned (),
      ["Draw a line from (90, 200) to (110, 200)\n", "Draw a solid circle at (100, 200)\n"]) := by
  constructor <;> rfl

/-- C18: the single callback can be cleared.  For every window, after
`SetOnClickListener(nil)`, `NotifyClick(x, y)` returns normally and leaves the
state of the world as it was, which is what it does on a zero-value window. -/
theorem C18_callback_cleared_by_nil {σ : Type} (w : Callback.Window σ) (x y : Int) (s : σ) :
    (w.SetOnClickListener none).NotifyClick x y s = (Outcome.returned (), s) ∧
    (w.SetOnClickListener none).NotifyClick x y s
      = (Callback.Window.zero : Callback.Window σ).NotifyClick x y s :=
  ⟨rfl, rfl⟩

/-! ### The end of the chain -/

theorem chainList_foldl_add_congr {σ : Type} (hs : List (ClickHandler σ)) :
    ∀ w1 w2 : ChainList.Window σ, w1.NotifyClick = w2.NotifyClick →
      (hs.foldl ChainList.Window.AddOnClickHandler w1).NotifyClick
        = (hs.foldl ChainList.Window.AddOnClickHandler w2).NotifyClick := by
  induction hs with
  | nil => intro w1 w2 h; exact h
  | cons h hs ih =>
    intro w1 w2 hw
    apply ih
    funext x y
    rw [chainList_notify_add, chainList_notify_add, hw]

theorem chain_foldl_add_congr {σ : Type} (hs : List (ClickHandler σ)) :
    ∀ w1 w2 : Chain.Window σ, w1.NotifyClick = w2.NotifyClick →
      (hs.foldl Chain.Window.AddOnClickHandler w1).NotifyClick
        = (hs.foldl Chain.Window.AddOnClickHandler w2).NotifyClick := by
  induction hs with
  | nil => intro w1 w2 h; exact h
  | cons h hs ih =>
    intro w1 w2 hw
    apply ih
    funext x y
    rw [chain_notify_add, chain_notify_add, hw]

/-- C15: calling `next` at the end of the chain is safe, in both programs.
The `next` that the earliest-registered handler `h1` receives is a function
that, for all arguments and from every state, returns normally and leaves the
state as it was: with any handlers registered after `h1`, `NotifyClick` is the
same computation as when `h1` is given `noopNext` in place of its `next`.  In
the linked-list program the item of `h1` has the nil pointer as `Next`, and
`Call` on the nil pointer returns at once. -/
theorem C15_next_at_chain_end_is_noop {σ : Type} (h1 : HandlerFn σ) (hs : List (HandlerFn σ)) :
    (∀ (a b : Int) (s : σ), (noopNext a b : Eff σ Unit) s = (Outcome.returned (), s)) ∧
    ((ChainList.register [some h1]).onClickChainHead
        = ChainList.onClickChainItem.item (some h1) ChainList.onClickChainItem.nil ∧
      ∀ (a b : Int) (s : σ),
        (ChainList.onClickChainItem.nil : ChainList.onClickChainItem σ).Call a b s
          = (Outcome.returned (), s)) ∧
    (ChainList.register (some h1 :: hs.map some)).NotifyClick
      = (ChainList.register
          (some (fun x y _ => h1 x y noopNext) :: hs.map some)).NotifyClick ∧
    (Chain.register (some h1 :: hs.map some)).NotifyClick
      = (Chain.register (some (fun x y _ => h1 x y noopNext) :: hs.map some)).NotifyClick := by
  refine ⟨fun _ _ _ => rfl, ⟨rfl, fun _ _ _ => rfl⟩, ?_, ?_⟩
  · exact chainList_foldl_add_congr (hs.map some)
      (ChainList.Window.zero.AddOnClickHandler (some h1))
      (ChainList.Window.zero.AddOnClickHandler (some (fun x y _ => h1 x y noopNext)))
      (by funext x y; rfl)
  · exact chain_foldl_add_congr (hs.map some)
      (Chain.Window.zero.AddOnClickHandler (some h1))
      (Chain.Window.zero.AddOnClickHandler (some (fun x y _ => h1 x y noopNext)))
      (by funext x y; rfl)

/-! ### Render -/

theorem recordCalls_methodSet {τ : Type} (v : Widgets.Object τ) :
    (Widgets.recordCalls v).methodSet = v.methodSet := by
  funext name
  simp only [Widgets.Object.methodSet, Widgets.recordCalls]
  cases v name <;> rfl

theorem implements_not_both (T : Widgets.MethodSet)
    (h1 : Widgets.implements T Widgets.StatefulWidget = true)
    (h2 : Widgets.implements T Widgets.StatelessWidget = true) : False := by
  simp only [Widgets.implements, Widgets.StatefulWidget, Widgets.StatelessWidget, Widgets.Widget,
    List.cons_append, List.nil_append, List.all_cons, List.all_nil, Bool.and_true,
    Bool.and_eq_true, decide_eq_true_eq] at h1 h2
  obtain ⟨_, _, e1⟩ := h1
  obtain ⟨_, _, e2⟩ := h2
  rw [e1] at e2
  exact absurd e2 (by decide)

theorem implements_has_method (T : Widgets.MethodSet) (I : Widgets.Interface)
    (h : Widgets.implements T I = true) (m : String × Widgets.Signature) (hm : m ∈ I) :
    T m.1 = some m.2 := by
  simp only [Widgets.implements, List.all_eq_true, decide_eq_true_eq] at h
  exact h m hm

theorem invoke_recorded_calls {τ : Type} (v : Widgets.Object τ) (name : String)
    (sig : Widgets.Signature) (h : v.methodSet name = some sig) (s : τ × List String) :
    (((Widgets.recordCalls v).invoke name >>= fun r => (pure r : Eff (τ × List String) Unit)) s).2.2
      = s.2 ++ [name] := by
  simp only [Widgets.Object.methodSet] at h
  cases hv : v name with
  | none => rw [hv] at h; cases h
  | some m =>
    show (Eff.seq ((Widgets.recordCalls v).invoke name) (fun r => Eff.ret r) s).2.2 = s.2 ++ [name]
    simp only [Eff.seq, Widgets.Object.invoke, Widgets.recordCalls, hv, Option.map_some']
    cases (m.body s.1).1 <;> rfl

theorem typeAssert_some {σ : Type} (v : Widgets.Object σ) (I : Widgets.Interface)
    (h : Widgets.implements v.methodSet I = true) :
    Widgets.typeAssert (some v) I = some v := by
  simp [Widgets.typeAssert, h]

theorem typeAssert_none {σ : Type} (v : Widgets.Object σ) (I : Widgets.Interface)
    (h : Widgets.implements v.methodSet I = false) :
    Widgets.typeAssert (some v) I = none := by
  simp [Widgets.typeAssert, h]

theorem render_swapped_agree {σ : Type} (widget : Option (Widgets.Object σ)) :
    Widgets.Render widget = Widgets.RenderSwapped widget := by
  cases widget with
  | none => rfl
  | some v =>
    cases h1 : Widgets.implements v.methodSet Widgets.StatefulWidget <;>
    cases h2 : Widgets.implements v.methodSet Widgets.StatelessWidget
    · simp [Widgets.Render, Widgets.RenderSwapped, typeAssert_none v _ h1, typeAssert_none v _ h2]
    · simp [Widgets.Render, Widgets.RenderSwapped, typeAssert_none v _ h1, typeAssert_some v _ h2]
    · simp [Widgets.Render, Widgets.RenderSwapped, typeAssert_some v _ h1, typeAssert_none v _ h2]
    · exact (implements_not_both _ h1 h2).elim

/-- C16: the dispatch of `Render` is exclusive and total.  For every non-nil
widget value, with its methods recording their calls: if its type implements
`StatefulWidget`, `Render` calls `CreateState` once and nothing else; if it
implements `StatelessWidget`, `Render` calls `Build` once and nothing else; if
it implements neither, or the value is nil, `Render` does nothing; no type
implements both; and `Render` is the same computation when the two type
assertions are tried in the other order. -/
theorem C16_render_dispatch_exclusive_total {τ : Type} (v : Widgets.Object τ)
    (s : τ × List String) :
    (Widgets.implements v.methodSet Widgets.StatefulWidget = true →
      (Widgets.Render (some (Widgets.recordCalls v)) s).2.2 = s.2 ++ ["CreateState"]) ∧
    (Widgets.implements v.methodSet Widgets.StatelessWidget = true →
      (Widgets.Render (some (Widgets.recordCalls v)) s).2.2 = s.2 ++ ["Build"]) ∧
    (Widgets.implements v.methodSet Widgets.StatefulWidget = false →
      Widgets.implements v.methodSet Widgets.StatelessWidget = false →
      Widgets.Render (some (Widgets.recordCalls v)) s = (Outcome.returned (), s)) ∧
    Widgets.Render (none : Option (Widgets.Object (τ × List String))) s
      = (Outcome.returned (), s) ∧
    ¬ (Widgets.implements v.methodSet Widgets.StatefulWidget = true ∧
        Widgets.implements v.methodSet Widgets.StatelessWidget = true) ∧
    (∀ widget : Option (Widgets.Object (τ × List String)),
      Widgets.Render widget = Widgets.RenderSwapped widget) := by
  refine ⟨?_, ?_, ?_, rfl, fun h => implements_not_both _ h.1 h.2, render_swapped_agree⟩
  · intro h
    have hm := implements_has_method _ _ h
      ("CreateState", { params := [], results := [Widgets.GoType.WidgetState] })
      (by simp [Widgets.StatefulWidget, Widgets.Widget])
    have hr : Widgets.implements (Widgets.recordCalls v).methodSet Widgets.StatefulWidget = true := by
      rw [recordCalls_methodSet]; exact h
    simp only [Widgets.Render, typeAssert_some _ _ hr]
    exact invoke_recorded_calls v "CreateState" _ hm s
  · intro h
    have hm := implements_has_method _ _ h
      ("Build", { params := [], results := [Widgets.GoType.Widget] })
      (by simp [Widgets.StatelessWidget, Widgets.Widget])
    have hn : Widgets.implements (Widgets.recordCalls v).methodSet Widgets.StatefulWidget = false := by
      rw [recordCalls_methodSet]
      cases h1 : Widgets.implements v.methodSet Widgets.StatefulWidget
      · rfl
      · exact (implements_not_both _ h1 h).elim
    have hr : Widgets.implements (Widgets.recordCalls v).methodSet Widgets.StatelessWidget = true := by
      rw [recordCalls_methodSet]; exact h
    simp only [Widgets.Render, typeAssert_none _ _ hn, typeAssert_some _ _ hr]
    exact invoke_recorded_calls v "Build" _ hm s
  · intro h1 h2
    have hn1 : Widgets.implements (Widgets.recordCalls v).methodSet Widgets.StatefulWidget = false := by
      rw [recordCalls_methodSet]; exact h1
    have hn2 : Widgets.implements (Widgets.recordCalls v).methodSet Widgets.StatelessWidget = false := by
      rw [recordCalls_methodSet]; exact h2
    simp only [Widgets.Render, typeAssert_none _ _ hn1, typeAssert_none _ _ hn2]
    rfl

/-- C16 at a value whose type implements `StatefulWidget` and at a value whose
type implements `StatelessWidget`. -/
theorem C16_render_dispatch_exclusive_total_witness :
    (Widgets.implements (Widgets.statefulExample : Widgets.Object Unit).methodSet
        Widgets.StatefulWidget = true ∧
      (Widgets.Render (some (Widgets.recordCalls Widgets.statefulExample)) ((), [])).2.2
        = [] ++ ["CreateState"]) ∧
    (Widgets.implements (Widgets.statelessExample : Widgets.Object Unit).methodSet
        Widgets.StatelessWidget = true ∧
      (Widgets.Render (some (Widgets.recordCalls Widgets.statelessExample)) ((), [])).2.2
        = [] ++ ["Build"]) ∧
    (Widgets.implements (Widgets.wiredWidget : Widgets.Object Unit).methodSet
        Widgets.StatefulWidget = false ∧
      Widgets.implements (Widgets.wiredWidget : Widgets.Object Unit).methodSet
        Widgets.StatelessWidget = false ∧
      Widgets.Render (some (Widgets.recordCalls Widgets.wiredWidget)) ((), [])
        = (Outcome.returned (), ((), []))) :=
  ⟨⟨by decide, (C16_render_dispatch_exclusive_total Widgets.statefulExample ((), [])).1
      (by decide)⟩,
    ⟨by decide, (C16_render_dispatch_exclusive_total Widgets.statelessExample ((), [])).2.1
      (by decide)⟩,
    ⟨by decide, by decide,
      (C16_render_dispatch_exclusive_total Widgets.wiredWidget ((), [])).2.2.1
        (by decide) (by decide)⟩⟩

/-! ### Observer list, listeners that register listeners -/

theorem reentrant_foldl_add {τ : Type} (added : List (ObserverReentrant.Listener τ)) :
    ∀ w : ObserverReentrant.Window τ,
      added.foldl ObserverReentrant.Window.AddOnClickListener w
        = { onClickListeners := w.onClickListeners ++ added } := by
  induction added with
  | nil => intro w; simp
  | cons l added ih =>
    intro w
    simp [ih, ObserverReentrant.Window.AddOnClickListener]

theorem reentrant_loop {τ : Type} (x y : Int) (ls : List (ObserverReentrant.Listener τ)) :
    ∀ (u : τ) (w : ObserverReentrant.Window τ),
      ls.foldl (fun st listener => ObserverReentrant.Listener.call listener x y st) (u, w)
        = ((ObserverReentrant.invokeAll ls x y u).1,
            { onClickListeners :=
                w.onClickListeners ++ (ObserverReentrant.invokeAll ls x y u).2 }) := by
  induction ls with
  | nil => intro u w; simp [ObserverReentrant.invokeAll]
  | cons l ls ih =>
    intro u w
    have hcall : ObserverReentrant.Listener.call l x y (u, w)
        = ((l.run x y u).1, { onClickListeners := w.onClickListeners ++ (l.run x y u).2 }) := by
      simp [ObserverReentrant.Listener.call, reentrant_foldl_add]
    simp only [List.foldl_cons, ObserverReentrant.invokeAll]
    rw [hcall, ih]
    simp [List.append_assoc]

theorem reentrant_notify {τ : Type} (w : ObserverReentrant.Window τ) (x y : Int) (u : τ) :
    w.NotifyClick x y u
      = ((ObserverReentrant.invokeAll w.onClickListeners x y u).1,
          { onClickListeners :=
              w.onClickListeners ++ (ObserverReentrant.invokeAll w.onClickListeners x y u).2 }) :=
  reentrant_loop x y w.onClickListeners u w

theorem invokeAll_append {τ : Type} (x y : Int) (a b : List (ObserverReentrant.Listener τ)) :
    ∀ u : τ, ObserverReentrant.invokeAll (a ++ b) x y u
      = ((ObserverReentrant.invokeAll b x y (ObserverReentrant.invokeAll a x y u).1).1,
          (ObserverReentrant.invokeAll a x y u).2
            ++ (ObserverReentrant.invokeAll b x y (ObserverReentrant.invokeAll a x y u).1).2) := by
  induction a with
  | nil => intro u; simp [ObserverReentrant.invokeAll]
  | cons l a ih => intro u; simp [ObserverReentrant.invokeAll, ih]

theorem invokeAll_numbered {υ : Type} (x y : Int)
    (ps : List (Nat × (Int → Int → υ → υ × List (ObserverReentrant.Listener (υ × List Nat))))) :
    ∀ s : υ × List Nat,
      (ObserverReentrant.invokeAll
          (ps.map (fun p => ObserverReentrant.numbered p.1 p.2)) x y s).1.2
        = s.2 ++ ps.map Prod.fst := by
  induction ps with
  | nil => intro s; simp [ObserverReentrant.invokeAll]
  | cons p ps ih =>
    intro s
    simp only [List.map_cons, ObserverReentrant.invokeAll]
    rw [ih]
    simp [ObserverReentrant.numbered, ObserverReentrant.Listener.run]

/-- C17: the notification of the observer program goes over the listeners as
they were when it began.  For listeners that may call `AddOnClickListener` on
the same window while they run:
(1) `NotifyClick` invokes the listeners registered when it began, once each,
in order, and none of the listeners added meanwhile, which are appended to the
window;
(2) the next `NotifyClick` invokes the earlier listeners first, once each, in
order, and then the listeners added during the first one;
(3) when the registered listeners record their numbers, the numbers recorded
by a `NotifyClick` are theirs, in registration order, whatever they add;
(4) with listener 1, and listener 2 that adds listener 3, a first click
records 1, 2 and a second click records 1, 2, 3 after that. -/
theorem C17_observer_notify_over_snapshot {τ υ : Type} (w : ObserverReentrant.Window τ)
    (x y x2 y2 : Int) (u : τ)
    (ps : List (Nat × (Int → Int → υ → υ × List (ObserverReentrant.Listener (υ × List Nat)))))
    (s : υ × List Nat) :
    w.NotifyClick x y u
      = ((ObserverReentrant.invokeAll w.onClickListeners x y u).1,
          { onClickListeners :=
              w.onClickListeners ++ (ObserverReentrant.invokeAll w.onClickListeners x y u).2 }) ∧
    ((w.NotifyClick x y u).2.NotifyClick x2 y2 (w.NotifyClick x y u).1).1
      = (ObserverReentrant.invokeAll (ObserverReentrant.invokeAll w.onClickListeners x y u).2
          x2 y2
          (ObserverReentrant.invokeAll w.onClickListeners x2 y2
            (ObserverReentrant.invokeAll w.onClickListeners x y u).1).1).1 ∧
    ((({ onClickListeners := ps.map (fun p => ObserverReentrant.numbered p.1 p.2) } :
        ObserverReentrant.Window (υ × List Nat)).NotifyClick x y s).1.2
      = s.2 ++ ps.map Prod.fst) ∧
    (ObserverReentrant.twoListeners.NotifyClick 100 200 ((), [])).1.2 = [1, 2] ∧
    ((ObserverReentrant.twoListeners.NotifyClick 100 200 ((), [])).2.NotifyClick 100 200
        (ObserverReentrant.twoListeners.NotifyClick 100 200 ((), [])).1).1.2
      = [1, 2, 1, 2, 3] := by
  refine ⟨reentrant_notify w x y u, ?_, ?_, by decide, by decide⟩
  · rw [reentrant_notify w x y u, reentrant_notify]
    simp only [invokeAll_append]
  · rw [reentrant_notify]
    exact invokeAll_numbered x y ps s
